import Mathlib

/-!
Shallow embedding of the GPU telemetry extraction core of nvtop (AMDGPU
backend and generic process-accounting layer), translated from
src/extract_gpuinfo_amdgpu.c and src/extract_gpuinfo.c.

Machine counters (uint64 nanosecond counters, byte counts) are modelled as
Nat; the only subtraction the C code performs on them is guarded by a
greater-or-equal test, so truncated Nat subtraction agrees with the C
computation.  C doubles (CPU times, wall-clock seconds) are modelled as Rat.
Validity bitmasks (SET_GPUINFO_PROCESS / GPUINFO_PROCESS_FIELD_VALID and
friends) are modelled as one Bool per field next to its value, mirroring the
value-plus-bit representation of the source.
-/

/-- Process classification, from enum gpu_process_type.  The parser only ever
writes the compute variant. -/
inductive GpuProcessType where
  | unknown
  | graphical
  | compute
deriving DecidableEq, Repr

/-- struct gpu_process (the per-(device, process) usage record filled by the
fdinfo parser and the process accounting cache).  Each field that the C code
guards with a validity bit is paired with a Bool.  The record is calloc-zeroed
by the fdinfo dispatcher before parsing, which the defaults reproduce. -/
structure gpu_process where
  pid : Int := 0
  ptype : GpuProcessType := .unknown
  gpu_usage : Nat := 0
  gpu_usage_valid : Bool := false
  encode_usage : Nat := 0
  encode_usage_valid : Bool := false
  decode_usage : Nat := 0
  decode_usage_valid : Bool := false
  gpu_memory_usage : Nat := 0
  gpu_memory_usage_valid : Bool := false
  gfx_engine_used : Nat := 0
  gfx_engine_used_valid : Bool := false
  compute_engine_used : Nat := 0
  compute_engine_used_valid : Bool := false
  enc_engine_used : Nat := 0
  enc_engine_used_valid : Bool := false
  dec_engine_used : Nat := 0
  dec_engine_used_valid : Bool := false
  cmdline : Option String := none
  user_name : Option String := none
  cpu_usage : Int := 0
  cpu_usage_valid : Bool := false
  cpu_memory_res : Nat := 0
  cpu_memory_res_valid : Bool := false
  cpu_memory_virt : Nat := 0
  cpu_memory_virt_valid : Bool := false
deriving DecidableEq, Repr

/-- struct amdgpu_process_info_cache: last observed cumulative engine
busy-time counters (nanoseconds) for one (client-id, pid) key, with the
timestamp of that observation.  Timestamps are wall-clock nanoseconds. -/
structure amdgpu_process_info_cache where
  gfx_engine_used : Nat := 0
  gfx_engine_used_valid : Bool := false
  compute_engine_used : Nat := 0
  compute_engine_used_valid : Bool := false
  enc_engine_used : Nat := 0
  enc_engine_used_valid : Bool := false
  dec_engine_used : Nat := 0
  dec_engine_used_valid : Bool := false
  last_measurement_tstamp : Nat := 0
deriving DecidableEq, Repr

/-- The uthash table keyed by struct unique_cache_id = (client_id, pid),
modelled as an association list. -/
def CacheMap := List ((Nat × Int) × amdgpu_process_info_cache)

instance : DecidableEq CacheMap := fun a b => List.hasDecEq a b

/-- HASH_DEL on the (client-id, pid) keyed table: remove the (single) entry
found for the key. -/
def eraseClient (k : Nat × Int) (m : CacheMap) : CacheMap :=
  m.eraseP (fun kv => kv.1 == k)

/-- HASH_FIND_CLIENT. -/
def findClient (k : Nat × Int) (m : CacheMap) : Option amdgpu_process_info_cache :=
  match m.find? (fun kv => kv.1 == k) with
  | some kv => some kv.2
  | none => none

/-- The four engines recognized by the AMDGPU fdinfo parser. -/
inductive Engine where
  | gfx
  | compute
  | dec
  | enc
deriving DecidableEq, Repr

/-- One fdinfo line after extract_kv and key/value validation, one
constructor per parse path of the line loop of parse_drm_fdinfo_amd:
* pdevLine: key pdev or drm-pdev, with the value string;
* clientIdLine: key drm-client-id whose value parsed as a clean unsigned
  integer (a trailing non-digit makes the line skipped instead);
* vramLine: key vram mem or drm-memory-vram whose value parsed as an
  integer followed by a kB / KiB suffix, carrying the kilobyte count;
* engineOldLine: legacy key engine-name followed by an index, whose value
  parsed as a number followed by a percent sign, carrying the rounded
  percentage;
* engineNewLine: key drm-engine-x whose value parsed as an integer followed
  by a nanosecond suffix, carrying the cumulative nanosecond counter;
* skipped: any other line (unknown key, malformed value, no colon). -/
inductive FdinfoLine where
  | pdevLine (val : String)
  | clientIdLine (cid : Nat)
  | vramLine (kB : Nat)
  | engineOldLine (e : Engine) (percent : Nat)
  | engineNewLine (e : Engine) (ns : Nat)
  | skipped
deriving DecidableEq, Repr

/-- Legacy-interface accumulation: recognized utilization percentages add
onto the current field value (SET_GPUINFO_PROCESS with field + percent); a
compute line additionally classifies the process as compute. -/
def addOldUsage (e : Engine) (percent : Nat) (p : gpu_process) : gpu_process :=
  match e with
  | .gfx => { p with gpu_usage := p.gpu_usage + percent, gpu_usage_valid := true }
  | .compute => { p with ptype := .compute,
                         gpu_usage := p.gpu_usage + percent, gpu_usage_valid := true }
  | .dec => { p with decode_usage := p.decode_usage + percent, decode_usage_valid := true }
  | .enc => { p with encode_usage := p.encode_usage + percent, encode_usage_valid := true }

/-- Modern-interface record: the cumulative nanosecond counter overwrites the
raw engine-used field; a compute line additionally classifies the process. -/
def setEngineUsed (e : Engine) (ns : Nat) (p : gpu_process) : gpu_process :=
  match e with
  | .gfx => { p with gfx_engine_used := ns, gfx_engine_used_valid := true }
  | .compute => { p with ptype := .compute,
                         compute_engine_used := ns, compute_engine_used_valid := true }
  | .enc => { p with enc_engine_used := ns, enc_engine_used_valid := true }
  | .dec => { p with dec_engine_used := ns, dec_engine_used_valid := true }

/-- Mutable locals of the line loop of parse_drm_fdinfo_amd: the record
being filled, and the client_id_set flag with the parsed client id. -/
structure ParseSt where
  proc : gpu_process
  client_id_set : Bool
  cid : Nat
deriving DecidableEq, Repr

/-- One iteration of the line loop of parse_drm_fdinfo_amd.  none models the
early return false on a device-identifier line whose value differs from the
target device's pdev (strcmp non-zero). -/
def processLine (pdev : String) (st : ParseSt) : FdinfoLine → Option ParseSt
  | .pdevLine v => if v = pdev then some st else none
  | .clientIdLine c => some { st with cid := c, client_id_set := true }
  | .vramLine kB =>
      some { st with proc := { st.proc with gpu_memory_usage := kB * 1024,
                                            gpu_memory_usage_valid := true } }
  | .engineOldLine e percent => some { st with proc := addOldUsage e percent st.proc }
  | .engineNewLine e ns => some { st with proc := setEngineUsed e ns st.proc }
  | .skipped => some st

/-- The line loop: processes lines in order until the end of the stream
(true) or until a mismatching device-identifier line aborts it (false).  In
both cases the parse state reached so far is returned: the C code has
already stored every field committed by earlier lines into the caller's
record when it returns false. -/
def parseLines (pdev : String) : ParseSt → List FdinfoLine → Bool × ParseSt
  | st, [] => (true, st)
  | st, l :: ls =>
    match processLine pdev st l with
    | none => (false, st)
    | some st2 => parseLines pdev st2 ls

/-- Integer usage-percentage derivation from two cumulative nanosecond
observations, verbatim from the source (uint64 arithmetic; the caller
guarantees current_use_ns is at least previous_use_ns). -/
def busy_usage_from_time_usage_round (current_use_ns previous_use_ns
    time_between_measurement : Nat) : Nat :=
  ((current_use_ns - previous_use_ns) * 100 + time_between_measurement / 2) /
    time_between_measurement

/-- The guard in front of each engine delta derivation: current observation
valid, cached observation valid, counter monotonic non-decreasing, and delta
not exceeding the elapsed wall time. -/
def engineGate (curValid cacheValid : Bool) (cur prev elapsed : Nat) : Bool :=
  curValid && cacheValid && decide (prev ≤ cur) && decide (cur - prev ≤ elapsed)

/-- First guarded derivation of the repeat-key branch of
parse_drm_fdinfo_amd: if the gfx gate passes, commit the derived percentage
to the gpu_usage field. -/
def gfxStep (ce : amdgpu_process_info_cache) (elapsed : Nat) (p : gpu_process) :
    gpu_process :=
  if engineGate p.gfx_engine_used_valid ce.gfx_engine_used_valid
      p.gfx_engine_used ce.gfx_engine_used elapsed then
    { p with gpu_usage := busy_usage_from_time_usage_round p.gfx_engine_used
               ce.gfx_engine_used elapsed,
             gpu_usage_valid := true }
  else p

/-- Second guarded derivation: the compute delta also commits to the
gpu_usage field (overwriting a value the gfx gate just committed). -/
def computeStep (ce : amdgpu_process_info_cache) (elapsed : Nat) (p : gpu_process) :
    gpu_process :=
  if engineGate p.compute_engine_used_valid ce.compute_engine_used_valid
      p.compute_engine_used ce.compute_engine_used elapsed then
    { p with gpu_usage := busy_usage_from_time_usage_round p.compute_engine_used
               ce.compute_engine_used elapsed,
             gpu_usage_valid := true }
  else p

/-- Third guarded derivation: the dec delta commits to decode_usage. -/
def decStep (ce : amdgpu_process_info_cache) (elapsed : Nat) (p : gpu_process) :
    gpu_process :=
  if engineGate p.dec_engine_used_valid ce.dec_engine_used_valid
      p.dec_engine_used ce.dec_engine_used elapsed then
    { p with decode_usage := busy_usage_from_time_usage_round p.dec_engine_used
               ce.dec_engine_used elapsed,
             decode_usage_valid := true }
  else p

/-- Fourth guarded derivation: the enc delta commits to encode_usage. -/
def encStep (ce : amdgpu_process_info_cache) (elapsed : Nat) (p : gpu_process) :
    gpu_process :=
  if engineGate p.enc_engine_used_valid ce.enc_engine_used_valid
      p.enc_engine_used ce.enc_engine_used elapsed then
    { p with encode_usage := busy_usage_from_time_usage_round p.enc_engine_used
               ce.enc_engine_used elapsed,
             encode_usage_valid := true }
  else p

/-- The repeat-key branch of parse_drm_fdinfo_amd: the four guarded
derivations in source order (gfx, compute, dec, enc), each reading the raw
counter fields of the record, which no step modifies. -/
def deriveUsage (ce : amdgpu_process_info_cache) (elapsed : Nat)
    (p : gpu_process) : gpu_process :=
  encStep ce elapsed (decStep ce elapsed (computeStep ce elapsed (gfxStep ce elapsed p)))

/-- Store-this-measurement step: the cache entry receives exactly the raw
counters whose process fields are valid, and the current timestamp
(RESET_ALL followed by the four guarded SET_AMDGPU_CACHE calls). -/
def mkCacheEntry (p : gpu_process) (now : Nat) : amdgpu_process_info_cache :=
  { gfx_engine_used := if p.gfx_engine_used_valid then p.gfx_engine_used else 0,
    gfx_engine_used_valid := p.gfx_engine_used_valid,
    compute_engine_used := if p.compute_engine_used_valid then p.compute_engine_used else 0,
    compute_engine_used_valid := p.compute_engine_used_valid,
    enc_engine_used := if p.enc_engine_used_valid then p.enc_engine_used else 0,
    enc_engine_used_valid := p.enc_engine_used_valid,
    dec_engine_used := if p.dec_engine_used_valid then p.dec_engine_used else 0,
    dec_engine_used_valid := p.dec_engine_used_valid,
    last_measurement_tstamp := now }

/-- Result of one parse_drm_fdinfo_amd call: the returned bool (false means
the descriptor belongs to another device), the process record as left by the
call, and both cache generations of the owning device. -/
structure FdinfoOutcome where
  accepted : Bool
  proc : gpu_process
  last_cache : CacheMap
  current_cache : CacheMap
deriving DecidableEq

/-- parse_drm_fdinfo_amd: run the line loop, then, when a client id was
parsed, consult the previous-cycle cache for the (client-id, pid) key.  On a
hit the entry is unlinked from the previous-cycle table, the per-engine
deltas are derived, and the refilled entry is stored in the current-cycle
table; on a miss a fresh entry holding the raw counters is stored.  now is
the wall-clock nanosecond timestamp taken at the top of the call; the
elapsed time is the difference to the cached timestamp (nvtop_difftime_u64,
whose code is outside the extraction core: it is the nanosecond distance
between the two timestamps). -/
def parse_drm_fdinfo_amd (pdev : String) (last current : CacheMap) (now : Nat)
    (proc0 : gpu_process) (lines : List FdinfoLine) : FdinfoOutcome :=
  match parseLines pdev { proc := proc0, client_id_set := false, cid := 0 } lines with
  | (false, st) => ⟨false, st.proc, last, current⟩
  | (true, st) =>
    if st.client_id_set then
      match findClient (st.cid, st.proc.pid) last with
      | some ce =>
        let elapsed := now - ce.last_measurement_tstamp
        let p2 := deriveUsage ce elapsed st.proc
        ⟨true, p2, eraseClient (st.cid, st.proc.pid) last,
          ((st.cid, p2.pid), mkCacheEntry p2 now) :: current⟩
      | none =>
        ⟨true, st.proc, last,
          ((st.cid, st.proc.pid), mkCacheEntry st.proc now) :: current⟩
    else ⟨true, st.proc, last, current⟩

/-- swap_process_cache_for_next_update: free the stale previous-cycle table,
promote the current-cycle table, clear the working table. -/
def swap_process_cache_for_next_update (_last current : CacheMap) : CacheMap × CacheMap :=
  (current, [])

/-- Whether an fdinfo line is a legacy-interface engine percentage line. -/
def isEngineOld : FdinfoLine → Bool
  | .engineOldLine _ _ => true
  | _ => false

/-! Host-wide process identity cache, from src/extract_gpuinfo.c.  The two
generations cached_process_info (previous cycle) and updated_process_info
(built this cycle) are uthash tables keyed by pid, modelled as lists.  CPU
times and wall-clock timestamps are C doubles, modelled as Rat; the GPU
memory-percentage block of gpuinfo_populate_process_info (a float-ratio
round independent of both caches) is not modelled. -/

/-- struct process_info_cache.  A last_total_consumed_cpu_time of -1 is the
no-prior-sample sentinel (freshly created entries start there). -/
structure process_info_cache where
  pid : Int
  cmdline : Option String := none
  user_name : Option String := none
  last_total_consumed_cpu_time : Rat := 0
  last_measurement_timestamp : Rat := 0
deriving DecidableEq, Repr

/-- The two generations of the process identity cache. -/
structure ProcCacheState where
  cached_process_info : List process_info_cache
  updated_process_info : List process_info_cache
deriving DecidableEq, Repr

/-- HASH_FIND_PID. -/
def findPid (l : List process_info_cache) (p : Int) : Option process_info_cache :=
  l.find? (fun e => e.pid == p)

/-- HASH_DEL of the entry found for a pid. -/
def erasePid (l : List process_info_cache) (p : Int) : List process_info_cache :=
  l.eraseP (fun e => e.pid == p)

/-- struct process_cpu_usage, as returned by the get_process_info
collaborator: cumulative user and kernel CPU time, the sampling wall-clock
timestamp (seconds, as Rat), and resident/virtual memory. -/
structure process_cpu_usage where
  total_user_time : Rat
  total_kernel_time : Rat
  timestamp : Rat
  resident_memory : Nat
  virtual_memory : Nat
deriving DecidableEq, Repr

/-- Environment collaborators of gpuinfo_populate_process_info: identity
resolution (get_username_from_pid / get_command_from_pid) and the CPU-time
sampler (get_process_info, none when the sample cannot be read). -/
structure PidEnv where
  user_of : Int → Option String
  cmd_of : Int → Option String
  sample_of : Int → Option process_cpu_usage

/-- Identity-resolution step of gpuinfo_populate_process_info for one pid:
look the pid up in the previous-cycle table first (moving a hit out of it),
then in the current-cycle table (removing the hit, which the caller
re-inserts after the CPU update), and otherwise create a fresh sentinel
entry resolving user name and command line once.  Returns the entry to
update and the two tables with the entry unlinked. -/
def resolveIdentity (env : PidEnv) (st : ProcCacheState) (pid : Int) :
    process_info_cache × ProcCacheState :=
  match findPid st.cached_process_info pid with
  | some e =>
    (e, { st with cached_process_info := erasePid st.cached_process_info pid })
  | none =>
    match findPid st.updated_process_info pid with
    | some e =>
      (e, { st with updated_process_info := erasePid st.updated_process_info pid })
    | none =>
      ({ pid := pid, user_name := env.user_of pid, cmdline := env.cmd_of pid,
         last_total_consumed_cpu_time := -1 }, st)

/-- CPU-usage block of gpuinfo_populate_process_info (the lines between
identity resolution and the memory-percentage computation): with a fresh
sample and a prior baseline, the process CPU percentage is the rounded
100 x delta-CPU-time over delta-wall-time; with a fresh sample but no
baseline the percentage is recorded as 0; in both sampled cases the entry
baseline is set to the fresh sample.  Without a sample the entry baseline is
reset to the -1 sentinel and no process field is written. -/
def updateProcCpu (sample : Option process_cpu_usage) (e : process_info_cache)
    (gp : gpu_process) : gpu_process × process_info_cache :=
  match sample with
  | some cu =>
    let gp2 :=
      if e.last_total_consumed_cpu_time > -1 then
        { gp with
          cpu_usage := round ((100 *
              (cu.total_user_time + cu.total_kernel_time -
                e.last_total_consumed_cpu_time)) /
              (cu.timestamp - e.last_measurement_timestamp)),
          cpu_usage_valid := true }
      else
        { gp with cpu_usage := 0, cpu_usage_valid := true }
    let gp3 := { gp2 with
      cpu_memory_res := cu.resident_memory, cpu_memory_res_valid := true,
      cpu_memory_virt := cu.virtual_memory, cpu_memory_virt_valid := true }
    (gp3, { e with last_measurement_timestamp := cu.timestamp,
                   last_total_consumed_cpu_time :=
                     cu.total_kernel_time + cu.total_user_time })
  | none => (gp, { e with last_total_consumed_cpu_time := -1 })

/-- One iteration of the loop of gpuinfo_populate_process_info: resolve the
identity entry for the process, copy cached command line and user name into
the process record when present, run the CPU-usage block, and store the
updated entry in the current-cycle table. -/
def touchProcess (env : PidEnv) (st : ProcCacheState) (gp : gpu_process) :
    gpu_process × ProcCacheState :=
  let r := resolveIdentity env st gp.pid
  let e := r.1
  let gp1 := match e.cmdline with
    | some c => { gp with cmdline := some c }
    | none => gp
  let gp2 := match e.user_name with
    | some u => { gp1 with user_name := some u }
    | none => gp1
  let u := updateProcCpu (env.sample_of gp.pid) e gp2
  (u.1, { r.2 with updated_process_info := u.2 :: r.2.updated_process_info })

/-- gpuinfo_populate_process_info over a device's process list, threading the
cache state. -/
def touchAll (env : PidEnv) (st : ProcCacheState) (pids : List Int) : ProcCacheState :=
  pids.foldl (fun s p => (touchProcess env s { pid := p }).2) st

/-- gpuinfo_clean_old_cache: free every entry still in the previous-cycle
table, promote the current-cycle table, clear the working table. -/
def gpuinfo_clean_old_cache (st : ProcCacheState) : ProcCacheState :=
  { cached_process_info := st.updated_process_info, updated_process_info := [] }

/-- One refresh cycle of gpuinfo_refresh_processes as seen by the identity
cache: touch every process observed this cycle, then swap-and-reap. -/
def runCycle (env : PidEnv) (st : ProcCacheState) (pids : List Int) : ProcCacheState :=
  gpuinfo_clean_old_cache (touchAll env st pids)

/-- A sequence of refresh cycles. -/
def runCycles (env : PidEnv) (st : ProcCacheState) (cycles : List (List Int)) :
    ProcCacheState :=
  cycles.foldl (runCycle env) st

/-- Number of identity-cache entries for a pid across both generations. -/
def entryCount (st : ProcCacheState) (p : Int) : Nat :=
  st.cached_process_info.countP (fun e => e.pid == p) +
    st.updated_process_info.countP (fun e => e.pid == p)

/-- Whether a lookup for a pid hits either generation. -/
def memState (st : ProcCacheState) (p : Int) : Bool :=
  (findPid st.cached_process_info p).isSome ||
    (findPid st.updated_process_info p).isSome

/-! Device-level fallback derivation, from
gpuinfo_fix_dynamic_info_from_process_info of src/extract_gpuinfo.c. -/

/-- The three dynamic-info fields the fallback engine can synthesize. -/
structure gpuinfo_dynamic_info where
  gpu_util_rate : Nat := 0
  gpu_util_rate_valid : Bool := false
  encoder_rate : Nat := 0
  encoder_rate_valid : Bool := false
  decoder_rate : Nat := 0
  decoder_rate_valid : Bool := false
deriving DecidableEq, Repr

/-- One guarded clamped accumulation on a (value, valid) device field from a
(valid, value) process contribution: nothing when the need flag is off or
the contribution invalid; the first valid contribution sets the field to
min 100 contribution; later ones set it to min 100 (field + contribution). -/
def rateStep (need : Bool) (s : Nat × Bool) (x : Bool × Nat) : Nat × Bool :=
  if need && x.1 then
    if s.2 then (min 100 (s.1 + x.2), s.2) else (min 100 x.2, true)
  else s

/-- Loop body of gpuinfo_fix_dynamic_info_from_process_info for one process:
the three device fields accumulate independently, each under its own need
flag computed before the loop. -/
def fixFromProcess (needRate needEnc needDec : Bool) (di : gpuinfo_dynamic_info)
    (p : gpu_process) : gpuinfo_dynamic_info :=
  let r := rateStep needRate (di.gpu_util_rate, di.gpu_util_rate_valid)
      (p.gpu_usage_valid, p.gpu_usage)
  let e := rateStep needEnc (di.encoder_rate, di.encoder_rate_valid)
      (p.encode_usage_valid, p.encode_usage)
  let d := rateStep needDec (di.decoder_rate, di.decoder_rate_valid)
      (p.decode_usage_valid, p.decode_usage)
  { gpu_util_rate := r.1, gpu_util_rate_valid := r.2,
    encoder_rate := e.1, encoder_rate_valid := e.2,
    decoder_rate := d.1, decoder_rate_valid := d.2 }

/-- gpuinfo_fix_dynamic_info_from_process_info for one device: when any of
overall utilization, encoder rate, decoder rate is still invalid after the
backend refresh, walk the device's processes accumulating the valid
per-process percentages into the still-needed fields. -/
def gpuinfo_fix_dynamic_info_from_process_info (di : gpuinfo_dynamic_info)
    (ps : List gpu_process) : gpuinfo_dynamic_info :=
  let needRate := !di.gpu_util_rate_valid
  let needEnc := !di.encoder_rate_valid
  let needDec := !di.decoder_rate_valid
  if needRate || needEnc || needDec then
    ps.foldl (fixFromProcess needRate needEnc needDec) di
  else di

/-- Sum of the contributions flagged valid, as the spec's per-engine
summation over a device's processes. -/
def sumValid : List (Bool × Nat) → Nat
  | [] => 0
  | x :: xs => (if x.1 then x.2 else 0) + sumValid xs

/-! AMDGPU device enumeration, from gpuinfo_amdgpu_get_device_handles of
src/extract_gpuinfo_amdgpu.c. -/

/-- One candidate drmDevicePtr as the enumeration loop observes it:
* bustype_pci_amd: bustype is DRM_BUS_PCI and the PCI vendor id is 0x1002;
* open_ok: some render or primary node opened (fd not negative);
* ver_ok: drmGetVersion returned a version;
* driver_amdgpu: the driver name compares equal to amdgpu (the radeon
  branch is dead code guarded by a constant false);
* init_ok: the amdgpu library handles are bound and
  amdgpu_device_initialize returned status zero;
* pciAddr: the PCI bus address the loop formats into a pdev string. -/
structure DrmDevice where
  bustype_pci_amd : Bool
  open_ok : Bool
  ver_ok : Bool
  driver_amdgpu : Bool
  init_ok : Bool
  pciAddr : String
deriving DecidableEq, Repr

/-- State of the enumeration loop: the remaining selection mask (a Nat whose
low bit is the next candidate's inclusion bit; the right shift is division
by two), the amdgpu_count of devices registered so far, the pdev strings of
the calloc-zeroed gpu_infos array, and the indices registered with the
device list and fdinfo dispatch table. -/
structure EnumState where
  mask : Nat
  amdgpu_count : Nat
  pdevArr : List String
  registered : List Nat
deriving DecidableEq, Repr

/-- Loop body of gpuinfo_amdgpu_get_device_handles for one candidate device.
count0 is the value behind the caller's count pointer, which the function
only assigns at the very end: every pdev write inside the loop indexes
gpu_infos with that unchanged incoming value, while every other per-device
access indexes with amdgpu_count. -/
def processDevice (count0 : Nat) (st : EnumState) (d : DrmDevice) : EnumState :=
  if !d.bustype_pci_amd then st
  else if !d.open_ok then st
  else if !d.ver_ok then st
  else if !d.driver_amdgpu then st
  else if st.mask % 2 == 0 then { st with mask := st.mask / 2 }
  else
    let st2 := { st with mask := st.mask / 2 }
    if d.init_ok then
      { st2 with
        pdevArr := st2.pdevArr.set count0 d.pciAddr,
        registered := st2.registered ++ [st2.amdgpu_count],
        amdgpu_count := st2.amdgpu_count + 1 }
    else st2

/-- gpuinfo_amdgpu_get_device_handles over the candidate list returned by
drmGetDevices: gpu_infos is calloc-zeroed (every pdev empty), and the
candidates are visited in order. -/
def gpuinfo_amdgpu_get_device_handles (count0 : Nat) (devs : List DrmDevice)
    (mask : Nat) : EnumState :=
  devs.foldl (processDevice count0)
    { mask := mask, amdgpu_count := 0,
      pdevArr := List.replicate devs.length "", registered := [] }

/-- Whether a candidate reaches the mask consumption point of the loop: it
passed the PCI/vendor filter, opened, produced a version, and reports the
amdgpu driver. -/
def reachesMaskCheck (d : DrmDevice) : Bool :=
  d.bustype_pci_amd && d.open_ok && d.ver_ok && d.driver_amdgpu

/-! Theorems.  Helper lemmas first, then one theorem per claim (with its
counterexample and witness theorems where applicable). -/

theorem parseLines_append (pdev : String) (st : ParseSt) (xs ys : List FdinfoLine) :
    parseLines pdev st (xs ++ ys) =
      match parseLines pdev st xs with
      | (true, st2) => parseLines pdev st2 ys
      | (false, st2) => (false, st2) := by
  induction xs generalizing st with
  | nil => simp [parseLines]
  | cons l ls ih =>
    simp only [List.cons_append, parseLines]
    cases h : processLine pdev st l with
    | none => simp
    | some st2 => simp [ih]

/-- C1 counterexample: a memory line placed before the mismatching
device-identifier line is committed to the record even though the parser
then returns not-mine: the claim's zero-fields-committed guarantee fails for
streams whose usage data precedes the identifier line. -/
theorem c1_counterexample :
    (parse_drm_fdinfo_amd "0000:01:00.0" [] [] 0 {}
        [.vramLine 4, .pdevLine "0000:02:00.0"]).accepted = false ∧
    (parse_drm_fdinfo_amd "0000:01:00.0" [] [] 0 {}
        [.vramLine 4, .pdevLine "0000:02:00.0"]).proc.gpu_memory_usage_valid = true := by
  constructor <;> rfl

/-- C1 amended: whenever the stream reaches a device-identifier line whose
value differs from the target device's bus address, parse_drm_fdinfo_amd
returns not-mine, commits nothing from that line onward (in particular the
cache/delta stage never runs and both cache generations are untouched), and
the record holds exactly the fields committed by the lines before the
mismatching line — so a stream whose identifier line precedes all usage data
has zero fields committed. -/
theorem c1_amended (pdev v : String) (last current : CacheMap) (now : Nat)
    (p0 : gpu_process) (pre post : List FdinfoLine) (hv : v ≠ pdev)
    (hpre : (parseLines pdev ⟨p0, false, 0⟩ pre).1 = true) :
    parse_drm_fdinfo_amd pdev last current now p0
        (pre ++ FdinfoLine.pdevLine v :: post) =
      ⟨false, (parseLines pdev ⟨p0, false, 0⟩ pre).2.proc, last, current⟩ := by
  unfold parse_drm_fdinfo_amd
  rw [parseLines_append]
  rcases h : parseLines pdev ⟨p0, false, 0⟩ pre with ⟨b, st2⟩
  rw [h] at hpre
  simp only at hpre
  subst hpre
  simp [parseLines, processLine, hv]

theorem c1_amended_witness :
    parse_drm_fdinfo_amd "0000:01:00.0" [] [] 0 {}
        [FdinfoLine.vramLine 4, .pdevLine "0000:02:00.0", .engineNewLine .gfx 7] =
      ⟨false, (parseLines "0000:01:00.0" ⟨{}, false, 0⟩ [FdinfoLine.vramLine 4]).2.proc,
        [], []⟩ :=
  c1_amended "0000:01:00.0" "0000:02:00.0" [] [] 0 {} [.vramLine 4]
    [.engineNewLine .gfx 7] (by decide) (by rfl)

theorem processLine_pid (pdev : String) (st st2 : ParseSt) (l : FdinfoLine)
    (h : processLine pdev st l = some st2) : st2.proc.pid = st.proc.pid := by
  cases l with
  | pdevLine v =>
    simp only [processLine] at h
    split at h
    · cases h; rfl
    · cases h
  | clientIdLine c => cases h; rfl
  | vramLine kB => cases h; rfl
  | engineOldLine e percent => cases h; cases e <;> rfl
  | engineNewLine e ns => cases h; cases e <;> rfl
  | skipped => cases h; rfl

theorem processLine_usage_invalid (pdev : String) (st st2 : ParseSt) (l : FdinfoLine)
    (h : processLine pdev st l = some st2) (hl : isEngineOld l = false)
    (h1 : st.proc.gpu_usage_valid = false) (h2 : st.proc.encode_usage_valid = false)
    (h3 : st.proc.decode_usage_valid = false) :
    st2.proc.gpu_usage_valid = false ∧ st2.proc.encode_usage_valid = false ∧
      st2.proc.decode_usage_valid = false := by
  cases l with
  | pdevLine v =>
    simp only [processLine] at h
    split at h
    · cases h; exact ⟨h1, h2, h3⟩
    · cases h
  | clientIdLine c => cases h; exact ⟨h1, h2, h3⟩
  | vramLine kB => cases h; exact ⟨h1, h2, h3⟩
  | engineOldLine e percent => simp [isEngineOld] at hl
  | engineNewLine e ns => cases h; cases e <;> exact ⟨h1, h2, h3⟩
  | skipped => cases h; exact ⟨h1, h2, h3⟩

theorem parseLines_pid (pdev : String) (st : ParseSt) (lines : List FdinfoLine) :
    (parseLines pdev st lines).2.proc.pid = st.proc.pid := by
  induction lines generalizing st with
  | nil => rfl
  | cons l ls ih =>
    simp only [parseLines]
    cases h : processLine pdev st l with
    | none => rfl
    | some st2 => simpa [processLine_pid pdev st st2 l h] using ih st2

theorem parseLines_usage_invalid (pdev : String) (lines : List FdinfoLine) :
    ∀ st : ParseSt, lines.all (fun l => !isEngineOld l) = true →
      st.proc.gpu_usage_valid = false → st.proc.encode_usage_valid = false →
      st.proc.decode_usage_valid = false →
      (parseLines pdev st lines).2.proc.gpu_usage_valid = false ∧
        (parseLines pdev st lines).2.proc.encode_usage_valid = false ∧
        (parseLines pdev st lines).2.proc.decode_usage_valid = false := by
  induction lines with
  | nil => exact fun st _ h1 h2 h3 => ⟨h1, h2, h3⟩
  | cons l ls ih =>
    intro st hold h1 h2 h3
    simp only [List.all_cons, Bool.and_eq_true, Bool.not_eq_true'] at hold
    simp only [parseLines]
    cases h : processLine pdev st l with
    | none => exact ⟨h1, h2, h3⟩
    | some st2 =>
      obtain ⟨g1, g2, g3⟩ :=
        processLine_usage_invalid pdev st st2 l h hold.1 h1 h2 h3
      exact ih st2 (by simpa using hold.2) g1 g2 g3

/-- C9: for a (client-id, pid) key with no previous-cycle cache entry, a
record made of modern-interface lines (the legacy percentage lines commit at
parse time and are excluded) commits no usage-percentage field whatever the
raw cumulative counters are; when the record carries a client id and is
accepted, the raw counters and the current timestamp are stored in the
current-cycle cache as the baseline, and the record is exactly what line
parsing produced. -/
theorem c9_first_seen_no_usage (pdev : String) (last current : CacheMap) (now : Nat)
    (pid : Int) (lines : List FdinfoLine)
    (hold : lines.all (fun l => !isEngineOld l) = true)
    (hmiss : ∀ cid, findClient (cid, pid) last = none) :
    ((parse_drm_fdinfo_amd pdev last current now { pid := pid } lines).proc.gpu_usage_valid
        = false ∧
      (parse_drm_fdinfo_amd pdev last current now { pid := pid } lines).proc.encode_usage_valid
        = false ∧
      (parse_drm_fdinfo_amd pdev last current now { pid := pid } lines).proc.decode_usage_valid
        = false) ∧
    (∀ st2 : ParseSt,
      parseLines pdev ⟨{ pid := pid }, false, 0⟩ lines = (true, st2) →
      st2.client_id_set = true →
      (parse_drm_fdinfo_amd pdev last current now { pid := pid } lines).current_cache =
          ((st2.cid, pid), mkCacheEntry st2.proc now) :: current ∧
        (parse_drm_fdinfo_amd pdev last current now { pid := pid } lines).proc = st2.proc) := by
  have hpid := parseLines_pid pdev ⟨{ pid := pid }, false, 0⟩ lines
  have hinv := parseLines_usage_invalid pdev lines ⟨{ pid := pid }, false, 0⟩ hold
    rfl rfl rfl
  unfold parse_drm_fdinfo_amd
  rcases hp : parseLines pdev ⟨{ pid := pid }, false, 0⟩ lines with ⟨b, st⟩
  rw [hp] at hpid hinv
  cases b with
  | false =>
    refine ⟨hinv, ?_⟩
    intro st2 heq
    cases heq
  | true =>
    simp only at hpid
    cases hset : st.client_id_set with
    | false =>
      refine ⟨by simpa [hset] using hinv, ?_⟩
      intro st2 heq hcid
      obtain rfl : st = st2 := by cases heq; rfl
      rw [hset] at hcid
      cases hcid
    | true =>
      have hm : findClient (st.cid, st.proc.pid) last = none := by
        rw [hpid]; exact hmiss st.cid
      refine ⟨by simpa [hset, hpid, hmiss st.cid] using hinv, ?_⟩
      intro st2 heq hcid
      obtain rfl : st = st2 := by cases heq; rfl
      simp [hset, hpid, hmiss st.cid]

theorem c9_witness :
    ((parse_drm_fdinfo_amd "0000:01:00.0" [] [] 99 { pid := 3 }
        [FdinfoLine.clientIdLine 7, .engineNewLine .gfx 12345]).proc.gpu_usage_valid
      = false ∧
    (parse_drm_fdinfo_amd "0000:01:00.0" [] [] 99 { pid := 3 }
        [FdinfoLine.clientIdLine 7, .engineNewLine .gfx 12345]).proc.encode_usage_valid
      = false ∧
    (parse_drm_fdinfo_amd "0000:01:00.0" [] [] 99 { pid := 3 }
        [FdinfoLine.clientIdLine 7, .engineNewLine .gfx 12345]).proc.decode_usage_valid
      = false) :=
  (c9_first_seen_no_usage "0000:01:00.0" [] [] 99 3
    [FdinfoLine.clientIdLine 7, .engineNewLine .gfx 12345] (by decide)
    (fun _ => rfl)).1

theorem engineGate_le (cv qv : Bool) (cur prev elapsed : Nat)
    (h : engineGate cv qv cur prev elapsed = true) : prev ≤ cur := by
  simp only [engineGate, Bool.and_eq_true, decide_eq_true_eq] at h
  exact h.1.2

theorem natRoundDiv (n W : Nat) :
    (((n + W / 2) / W : Nat) : ℤ) = round ((n : ℚ) / (W : ℚ)) := by
  rcases Nat.eq_zero_or_pos W with hW | hW
  · subst hW; simp
  · have hk : (n + W / 2) / W = (2 * n + W) / (2 * W) := by
      conv_rhs => rw [← Nat.div_div_eq_div_mul]
      congr 1
      omega
    rw [hk, round_eq]
    have hx : (n : ℚ) / (W : ℚ) + 1 / 2 = ((2 * n + W : ℕ) : ℚ) / ((2 * W : ℕ) : ℚ) := by
      have hWQ : ((W : ℚ)) ≠ 0 := by positivity
      push_cast
      field_simp
      ring
    rw [hx]
    have h2W : (0 : ℚ) < ((2 * W : ℕ) : ℚ) := by positivity
    set k := (2 * n + W) / (2 * W) with hkdef
    have hb1 : 2 * W * k ≤ 2 * n + W := Nat.mul_div_le (2 * n + W) (2 * W)
    have hb2 : 2 * n + W < (k + 1) * (2 * W) :=
      (Nat.div_lt_iff_lt_mul (by omega)).mp (Nat.lt_succ_self k)
    have hb1Q : (2 : ℚ) * W * k ≤ 2 * n + W := by exact_mod_cast hb1
    have hb2Q : (2 : ℚ) * n + W < (k + 1) * (2 * W) := by exact_mod_cast hb2
    symm
    rw [Int.floor_eq_iff]
    constructor
    · rw [le_div_iff₀ h2W]
      push_cast
      nlinarith [hb1Q]
    · rw [div_lt_iff₀ h2W]
      push_cast
      nlinarith [hb2Q]

/-- The integer derivation of the source computes the rounded-to-nearest
value of 100 times the counter delta over the elapsed time. -/
theorem busy_usage_round (cur prev elapsed : Nat) (h : prev ≤ cur) :
    ((busy_usage_from_time_usage_round cur prev elapsed : Nat) : ℤ) =
      round ((100 * ((cur : ℚ) - (prev : ℚ))) / (elapsed : ℚ)) := by
  have h1 : busy_usage_from_time_usage_round cur prev elapsed
      = ((cur - prev) * 100 + elapsed / 2) / elapsed := rfl
  rw [h1, natRoundDiv ((cur - prev) * 100) elapsed]
  congr 1
  rw [Nat.cast_mul, Nat.cast_sub h]
  push_cast
  ring

theorem deriveUsage_spec (ce : amdgpu_process_info_cache) (elapsed : Nat)
    (p : gpu_process) :
    (deriveUsage ce elapsed p).encode_usage_valid =
      (if engineGate p.enc_engine_used_valid ce.enc_engine_used_valid
          p.enc_engine_used ce.enc_engine_used elapsed then true
        else p.encode_usage_valid) ∧
    (deriveUsage ce elapsed p).encode_usage =
      (if engineGate p.enc_engine_used_valid ce.enc_engine_used_valid
          p.enc_engine_used ce.enc_engine_used elapsed then
          busy_usage_from_time_usage_round p.enc_engine_used ce.enc_engine_used elapsed
        else p.encode_usage) ∧
    (deriveUsage ce elapsed p).decode_usage_valid =
      (if engineGate p.dec_engine_used_valid ce.dec_engine_used_valid
          p.dec_engine_used ce.dec_engine_used elapsed then true
        else p.decode_usage_valid) ∧
    (deriveUsage ce elapsed p).decode_usage =
      (if engineGate p.dec_engine_used_valid ce.dec_engine_used_valid
          p.dec_engine_used ce.dec_engine_used elapsed then
          busy_usage_from_time_usage_round p.dec_engine_used ce.dec_engine_used elapsed
        else p.decode_usage) ∧
    (deriveUsage ce elapsed p).gpu_usage_valid =
      (if engineGate p.compute_engine_used_valid ce.compute_engine_used_valid
          p.compute_engine_used ce.compute_engine_used elapsed then true
        else if engineGate p.gfx_engine_used_valid ce.gfx_engine_used_valid
            p.gfx_engine_used ce.gfx_engine_used elapsed then true
        else p.gpu_usage_valid) ∧
    (deriveUsage ce elapsed p).gpu_usage =
      (if engineGate p.compute_engine_used_valid ce.compute_engine_used_valid
          p.compute_engine_used ce.compute_engine_used elapsed then
          busy_usage_from_time_usage_round p.compute_engine_used ce.compute_engine_used elapsed
        else if engineGate p.gfx_engine_used_valid ce.gfx_engine_used_valid
            p.gfx_engine_used ce.gfx_engine_used elapsed then
          busy_usage_from_time_usage_round p.gfx_engine_used ce.gfx_engine_used elapsed
        else p.gpu_usage) := by
  cases h1 : engineGate p.gfx_engine_used_valid ce.gfx_engine_used_valid
      p.gfx_engine_used ce.gfx_engine_used elapsed <;>
  cases h2 : engineGate p.compute_engine_used_valid ce.compute_engine_used_valid
      p.compute_engine_used ce.compute_engine_used elapsed <;>
  cases h3 : engineGate p.dec_engine_used_valid ce.dec_engine_used_valid
      p.dec_engine_used ce.dec_engine_used elapsed <;>
  cases h4 : engineGate p.enc_engine_used_valid ce.enc_engine_used_valid
      p.enc_engine_used ce.enc_engine_used elapsed <;>
    simp [deriveUsage, gfxStep, computeStep, decStep, encStep, h1, h2, h3, h4]

/-- C3: per engine, the derived usage percentage is the rounded
100 x delta over elapsed time and is committed exactly when both
observations are valid, the counter did not decrease, and the delta does not
exceed the elapsed time; otherwise the usage field stays invalid (for the
record's shared gpu field, commitment happens exactly when the gfx or the
compute gate passes, the compute value taking precedence). -/
theorem c3_delta_gating (ce : amdgpu_process_info_cache) (elapsed : Nat)
    (p : gpu_process) (hg : p.gpu_usage_valid = false)
    (he : p.encode_usage_valid = false) (hd : p.decode_usage_valid = false) :
    ((deriveUsage ce elapsed p).encode_usage_valid = true ↔
      engineGate p.enc_engine_used_valid ce.enc_engine_used_valid
        p.enc_engine_used ce.enc_engine_used elapsed = true) ∧
    (engineGate p.enc_engine_used_valid ce.enc_engine_used_valid
        p.enc_engine_used ce.enc_engine_used elapsed = true →
      (((deriveUsage ce elapsed p).encode_usage : Nat) : ℤ) =
        round ((100 * ((p.enc_engine_used : ℚ) - (ce.enc_engine_used : ℚ))) /
          (elapsed : ℚ))) ∧
    ((deriveUsage ce elapsed p).decode_usage_valid = true ↔
      engineGate p.dec_engine_used_valid ce.dec_engine_used_valid
        p.dec_engine_used ce.dec_engine_used elapsed = true) ∧
    (engineGate p.dec_engine_used_valid ce.dec_engine_used_valid
        p.dec_engine_used ce.dec_engine_used elapsed = true →
      (((deriveUsage ce elapsed p).decode_usage : Nat) : ℤ) =
        round ((100 * ((p.dec_engine_used : ℚ) - (ce.dec_engine_used : ℚ))) /
          (elapsed : ℚ))) ∧
    ((deriveUsage ce elapsed p).gpu_usage_valid = true ↔
      (engineGate p.gfx_engine_used_valid ce.gfx_engine_used_valid
          p.gfx_engine_used ce.gfx_engine_used elapsed = true ∨
        engineGate p.compute_engine_used_valid ce.compute_engine_used_valid
          p.compute_engine_used ce.compute_engine_used elapsed = true)) ∧
    (engineGate p.compute_engine_used_valid ce.compute_engine_used_valid
        p.compute_engine_used ce.compute_engine_used elapsed = true →
      (((deriveUsage ce elapsed p).gpu_usage : Nat) : ℤ) =
        round ((100 * ((p.compute_engine_used : ℚ) - (ce.compute_engine_used : ℚ))) /
          (elapsed : ℚ))) ∧
    (engineGate p.compute_engine_used_valid ce.compute_engine_used_valid
        p.compute_engine_used ce.compute_engine_used elapsed = false →
      engineGate p.gfx_engine_used_valid ce.gfx_engine_used_valid
        p.gfx_engine_used ce.gfx_engine_used elapsed = true →
      (((deriveUsage ce elapsed p).gpu_usage : Nat) : ℤ) =
        round ((100 * ((p.gfx_engine_used : ℚ) - (ce.gfx_engine_used : ℚ))) /
          (elapsed : ℚ))) := by
  obtain ⟨s1, s2, s3, s4, s5, s6⟩ := deriveUsage_spec ce elapsed p
  refine ⟨?_, ?_, ?_, ?_, ?_, ?_, ?_⟩
  · rw [s1]
    cases h4 : engineGate p.enc_engine_used_valid ce.enc_engine_used_valid
        p.enc_engine_used ce.enc_engine_used elapsed <;> simp [he]
  · intro h4
    rw [s2, if_pos h4]
    exact busy_usage_round _ _ _ (engineGate_le _ _ _ _ _ h4)
  · rw [s3]
    cases h3 : engineGate p.dec_engine_used_valid ce.dec_engine_used_valid
        p.dec_engine_used ce.dec_engine_used elapsed <;> simp [hd]
  · intro h3
    rw [s4, if_pos h3]
    exact busy_usage_round _ _ _ (engineGate_le _ _ _ _ _ h3)
  · rw [s5]
    cases h1 : engineGate p.gfx_engine_used_valid ce.gfx_engine_used_valid
        p.gfx_engine_used ce.gfx_engine_used elapsed <;>
    cases h2 : engineGate p.compute_engine_used_valid ce.compute_engine_used_valid
        p.compute_engine_used ce.compute_engine_used elapsed <;> simp [hg]
  · intro h2
    rw [s6, if_pos h2]
    exact busy_usage_round _ _ _ (engineGate_le _ _ _ _ _ h2)
  · intro h2 h1
    rw [s6, if_neg (by simp [h2]), if_pos h1]
    exact busy_usage_round _ _ _ (engineGate_le _ _ _ _ _ h1)

/-- C3 witness, at the spec's monotonicity example: the cached gfx counter is
1000 and the fresh sample is 900, so the gate fails and no usage is
committed (the theorem is applied at this input; the remaining facts are the
instantiated claim conclusion). -/
theorem c3_witness :
    (deriveUsage
        { gfx_engine_used := 1000, gfx_engine_used_valid := true,
          last_measurement_tstamp := 0 } 50
        { pid := 1, gfx_engine_used := 900, gfx_engine_used_valid := true }).gpu_usage_valid
      = false := by
  have h := (c3_delta_gating
      { gfx_engine_used := 1000, gfx_engine_used_valid := true,
        last_measurement_tstamp := 0 } 50
      { pid := 1, gfx_engine_used := 900, gfx_engine_used_valid := true }
      rfl rfl rfl).2.2.2.2.1
  rw [Bool.eq_false_iff]
  intro hv
  have := h.mp hv
  revert this
  decide

/-- C10 counterexample: when the cached timestamp equals the current sample
time and the counter is unchanged, every gate condition holds (0 is not
below 0 and 0 does not exceed 0) yet the elapsed wall time passed as the
divisor is zero, and the repeat-key path of parse_drm_fdinfo_amd does reach
the division with that zero divisor (in C the division is undefined; in this
embedding it yields 0, which is committed). -/
theorem c10_counterexample :
    ((1000 : Nat) -
      ({ gfx_engine_used := 500, gfx_engine_used_valid := true,
         last_measurement_tstamp := 1000 } :
          amdgpu_process_info_cache).last_measurement_tstamp) = 0 ∧
    engineGate true true 500 500
      ((1000 : Nat) -
        ({ gfx_engine_used := 500, gfx_engine_used_valid := true,
           last_measurement_tstamp := 1000 } :
            amdgpu_process_info_cache).last_measurement_tstamp) = true ∧
    (parse_drm_fdinfo_amd "0000:01:00.0"
        [((7, 0), { gfx_engine_used := 500, gfx_engine_used_valid := true,
                    last_measurement_tstamp := 1000 })] [] 1000 {}
        [.clientIdLine 7, .engineNewLine .gfx 500]).proc.gpu_usage_valid = true := by
  refine ⟨rfl, by decide, ?_⟩
  rfl

/-- C10 amended: the divisor of the usage derivation is nonzero provided the
cached observation's timestamp strictly precedes the current sample time; in
that case any percentage derived under a passing gate is well defined and at
most 100.  (Without that proviso the gates alone do not exclude a zero
divisor, as the counterexample shows.) -/
theorem c10_amended (ce : amdgpu_process_info_cache) (p : gpu_process) (now : Nat)
    (h : ce.last_measurement_tstamp < now) :
    now - ce.last_measurement_tstamp ≠ 0 ∧
    (engineGate p.gfx_engine_used_valid ce.gfx_engine_used_valid
        p.gfx_engine_used ce.gfx_engine_used (now - ce.last_measurement_tstamp) = true →
      busy_usage_from_time_usage_round p.gfx_engine_used ce.gfx_engine_used
        (now - ce.last_measurement_tstamp) ≤ 100) ∧
    (engineGate p.compute_engine_used_valid ce.compute_engine_used_valid
        p.compute_engine_used ce.compute_engine_used (now - ce.last_measurement_tstamp) = true →
      busy_usage_from_time_usage_round p.compute_engine_used ce.compute_engine_used
        (now - ce.last_measurement_tstamp) ≤ 100) ∧
    (engineGate p.dec_engine_used_valid ce.dec_engine_used_valid
        p.dec_engine_used ce.dec_engine_used (now - ce.last_measurement_tstamp) = true →
      busy_usage_from_time_usage_round p.dec_engine_used ce.dec_engine_used
        (now - ce.last_measurement_tstamp) ≤ 100) ∧
    (engineGate p.enc_engine_used_valid ce.enc_engine_used_valid
        p.enc_engine_used ce.enc_engine_used (now - ce.last_measurement_tstamp) = true →
      busy_usage_from_time_usage_round p.enc_engine_used ce.enc_engine_used
        (now - ce.last_measurement_tstamp) ≤ 100) := by
  have he : now - ce.last_measurement_tstamp ≠ 0 := by omega
  have key : ∀ cv qv : Bool, ∀ cur prev : Nat,
      engineGate cv qv cur prev (now - ce.last_measurement_tstamp) = true →
      busy_usage_from_time_usage_round cur prev (now - ce.last_measurement_tstamp) ≤ 100 := by
    intro cv qv cur prev hgate
    simp only [engineGate, Bool.and_eq_true, decide_eq_true_eq] at hgate
    obtain ⟨⟨⟨hcv, hqv⟩, hmono⟩, hdelta⟩ := hgate
    unfold busy_usage_from_time_usage_round
    set e := now - ce.last_measurement_tstamp with hedef
    have he1 : 0 < e := by omega
    have hnum : (cur - prev) * 100 + e / 2 ≤ e * 100 + e / 2 := by
      have : cur - prev ≤ e := hdelta
      nlinarith
    calc ((cur - prev) * 100 + e / 2) / e ≤ (e * 100 + e / 2) / e :=
          Nat.div_le_div_right hnum
      _ ≤ 100 := by
          have h2 : e / 2 < e := Nat.div_lt_self he1 (by omega)
          have : e * 100 + e / 2 < e * 101 := by omega
          have := Nat.div_lt_iff_lt_mul he1 |>.mpr (by omega : e * 100 + e / 2 < 101 * e)
          omega
  exact ⟨he, key _ _ _ _, key _ _ _ _, key _ _ _ _, key _ _ _ _⟩

theorem c10_amended_witness :
    busy_usage_from_time_usage_round 600 100 (1001 - 1) ≤ 100 := by
  have h := c10_amended
    { gfx_engine_used := 100, gfx_engine_used_valid := true,
      last_measurement_tstamp := 1 }
    { pid := 1, gfx_engine_used := 600, gfx_engine_used_valid := true }
    1001 (by decide)
  exact h.2.1 (by decide)

/-- C5 counterexample: a candidate device that fails the PCI/vendor filter
consumes no bit of the selection mask (the shift happens only after the
vendor, open, version and driver-name checks), so the mask is not consumed
one bit per candidate encountered. -/
theorem c5_counterexample :
    (gpuinfo_amdgpu_get_device_handles 0
        [{ bustype_pci_amd := false, open_ok := true, ver_ok := true,
           driver_amdgpu := true, init_ok := true, pciAddr := "0000:03:00.0" }]
        1).mask = 1 := by
  decide

/-- C5 amended: exactly one bit of the selection mask is consumed per
candidate that passes the PCI/vendor filter, opens, yields a DRM version and
reports the amdgpu driver; a candidate failing any of those checks consumes
no bit and leaves the loop state untouched.  A device that fails to open is
skipped while enumeration of the remaining devices continues, and processing
is always resumed on the rest of the list from the state the candidate
left. -/
theorem c5_amended (count0 : Nat) (st : EnumState) (d : DrmDevice)
    (ds : List DrmDevice) :
    (reachesMaskCheck d = true → (processDevice count0 st d).mask = st.mask / 2) ∧
    (reachesMaskCheck d = false → processDevice count0 st d = st) ∧
    (d.open_ok = false →
      (d :: ds).foldl (processDevice count0) st = ds.foldl (processDevice count0) st) ∧
    ((d :: ds).foldl (processDevice count0) st =
      ds.foldl (processDevice count0) (processDevice count0 st d)) := by
  obtain ⟨bpa, bo, bv, bd, bi, addr⟩ := d
  refine ⟨?_, ?_, ?_, rfl⟩
  · intro hr
    simp only [reachesMaskCheck, Bool.and_eq_true] at hr
    obtain ⟨⟨⟨h1, h2⟩, h3⟩, h4⟩ := hr
    subst h1 h2 h3 h4
    simp only [processDevice, Bool.not_true, Bool.false_eq_true, if_false]
    cases hm : st.mask % 2 == 0 <;> cases bi <;> simp
  · intro hr
    simp only [reachesMaskCheck, Bool.and_eq_true, not_and] at hr
    cases bpa <;> cases bo <;> cases bv <;> cases bd <;> simp_all [processDevice]
  · intro ho
    subst ho
    cases bpa <;> simp [processDevice]

theorem c5_amended_witness :
    (processDevice 0 { mask := 5, amdgpu_count := 0, pdevArr := [""], registered := [] }
      { bustype_pci_amd := true, open_ok := true, ver_ok := true,
        driver_amdgpu := true, init_ok := true, pciAddr := "0000:01:00.0" }).mask
      = 5 / 2 :=
  (c5_amended 0 { mask := 5, amdgpu_count := 0, pdevArr := [""], registered := [] }
    { bustype_pci_amd := true, open_ok := true, ver_ok := true,
      driver_amdgpu := true, init_ok := true, pciAddr := "0000:01:00.0" } []).1
    (by decide)

/-- C6: the enumeration loop writes every registered device's PCI bus
address into gpu_infos at the index held by the caller's count variable,
which keeps its incoming value (zero) throughout the loop, instead of at
amdgpu_count like every neighbouring access.  With two AMD devices that both
open and initialize, device 1's address overwrites device 0's pdev and
gpu_infos[1].pdev stays empty, so the identifier-to-device association the
fdinfo dispatcher relies on is broken for every device but the last one
written. -/
theorem c6_pdev_written_at_wrong_index :
    (gpuinfo_amdgpu_get_device_handles 0
        [{ bustype_pci_amd := true, open_ok := true, ver_ok := true,
           driver_amdgpu := true, init_ok := true, pciAddr := "0000:01:00.0" },
         { bustype_pci_amd := true, open_ok := true, ver_ok := true,
           driver_amdgpu := true, init_ok := true, pciAddr := "0000:02:00.0" }]
        3).amdgpu_count = 2 ∧
    (gpuinfo_amdgpu_get_device_handles 0
        [{ bustype_pci_amd := true, open_ok := true, ver_ok := true,
           driver_amdgpu := true, init_ok := true, pciAddr := "0000:01:00.0" },
         { bustype_pci_amd := true, open_ok := true, ver_ok := true,
           driver_amdgpu := true, init_ok := true, pciAddr := "0000:02:00.0" }]
        3).registered = [0, 1] ∧
    (gpuinfo_amdgpu_get_device_handles 0
        [{ bustype_pci_amd := true, open_ok := true, ver_ok := true,
           driver_amdgpu := true, init_ok := true, pciAddr := "0000:01:00.0" },
         { bustype_pci_amd := true, open_ok := true, ver_ok := true,
           driver_amdgpu := true, init_ok := true, pciAddr := "0000:02:00.0" }]
        3).pdevArr = ["0000:02:00.0", ""] := by
  refine ⟨rfl, rfl, rfl⟩

theorem countP_erasePid (l : List process_info_cache) (p : Int)
    (Q : process_info_cache → Bool) :
    l.countP Q = (erasePid l p).countP Q +
      (match findPid l p with
        | some e => if Q e then 1 else 0
        | none => 0) := by
  induction l with
  | nil => rfl
  | cons x xs ih =>
    cases hx : (x.pid == p) with
    | true =>
      simp only [erasePid, findPid, List.eraseP_cons, List.find?_cons, hx,
        cond_true, cond_false, List.countP_cons]
    | false =>
      simp only [erasePid, findPid, List.eraseP_cons, List.find?_cons, hx,
        cond_true, cond_false, List.countP_cons]
      simp only [erasePid, findPid] at ih
      omega

theorem findPid_none_countP (l : List process_info_cache) (p : Int)
    (h : findPid l p = none) : l.countP (fun e => e.pid == p) = 0 := by
  rw [List.countP_eq_zero]
  intro a ha
  have := List.find?_eq_none.mp h a ha
  simpa using this

theorem findPid_some_pid (l : List process_info_cache) (p : Int)
    (e : process_info_cache) (h : findPid l p = some e) : e.pid = p := by
  have := List.find?_some h
  simpa using this

theorem updateProcCpu_pid (s : Option process_cpu_usage) (e : process_info_cache)
    (gp : gpu_process) : (updateProcCpu s e gp).2.pid = e.pid := by
  cases s <;> rfl

theorem touchProcess_count (env : PidEnv) (st : ProcCacheState) (gp : gpu_process)
    (h : ∀ p, entryCount st p ≤ 1) (q : Int) :
    entryCount (touchProcess env st gp).2 q ≤ 1 := by
  unfold touchProcess resolveIdentity
  rcases hc : findPid st.cached_process_info gp.pid with _ | e
  · rcases hu : findPid st.updated_process_info gp.pid with _ | e
    · -- freshly created entry
      simp only [entryCount, List.countP_cons, updateProcCpu_pid]
      by_cases hq : gp.pid = q
      · subst hq
        have h0c := findPid_none_countP _ _ hc
        have h0u := findPid_none_countP _ _ hu
        simp only [entryCount] at *
        simp
        omega
      · have := h q
        simp only [entryCount] at this
        simp [beq_eq_false_iff_ne.mpr hq]
        omega
    · -- entry moved out of the current-cycle table and back in
      have hcount := countP_erasePid st.updated_process_info gp.pid
        (fun x => x.pid == q)
      rw [hu] at hcount
      simp only at hcount
      have := h q
      simp only [entryCount] at this
      simp only [entryCount, List.countP_cons, updateProcCpu_pid]
      omega
  · -- entry moved from the previous-cycle table
    have hcount := countP_erasePid st.cached_process_info gp.pid
      (fun x => x.pid == q)
    rw [hc] at hcount
    simp only at hcount
    have := h q
    simp only [entryCount] at this
    simp only [entryCount, List.countP_cons, updateProcCpu_pid]
    omega

theorem clean_count (st : ProcCacheState) (h : ∀ p, entryCount st p ≤ 1) (q : Int) :
    entryCount (gpuinfo_clean_old_cache st) q ≤ 1 := by
  have := h q
  simp only [entryCount, gpuinfo_clean_old_cache, List.countP_nil] at *
  omega

theorem touchAll_count (env : PidEnv) (pids : List Int) :
    ∀ st : ProcCacheState, (∀ p, entryCount st p ≤ 1) →
      ∀ q, entryCount (touchAll env st pids) q ≤ 1 := by
  induction pids with
  | nil => exact fun st h q => h q
  | cons a as ih =>
    intro st h q
    exact ih _ (touchProcess_count env st { pid := a } h) q

theorem runCycles_count (env : PidEnv) (cycles : List (List Int)) :
    ∀ st : ProcCacheState, (∀ p, entryCount st p ≤ 1) →
      ∀ q, entryCount (runCycles env st cycles) q ≤ 1 := by
  induction cycles with
  | nil => exact fun st h q => h q
  | cons c cs ih =>
    intro st h q
    exact ih _ (fun r => clean_count _ (touchAll_count env c st h) r) q

theorem touchProcess_new_count (env : PidEnv) (st : ProcCacheState) (pid : Int)
    (hc : findPid st.cached_process_info pid = none)
    (hu : findPid st.updated_process_info pid = none) :
    entryCount (touchProcess env st { pid := pid }).2 pid = 1 := by
  unfold touchProcess resolveIdentity
  rw [show ({ pid := pid } : gpu_process).pid = pid from rfl, hc, hu]
  have h0c := findPid_none_countP _ _ hc
  have h0u := findPid_none_countP _ _ hu
  simp only [entryCount, List.countP_cons, updateProcCpu_pid]
  simp
  omega

/-- C2: an identity-cache state holding at most one entry per pid across the
two generations keeps that property through every per-process touch (a hit
is moved between the tables, never duplicated; a double miss creates exactly
one entry) and through the end-of-cycle generation swap, hence through any
sequence of refresh cycles; and a pid absent from both tables has exactly
one entry immediately after it is touched. -/
theorem c2_single_owner (env : PidEnv) (st : ProcCacheState)
    (h : ∀ p, entryCount st p ≤ 1) :
    (∀ gp q, entryCount (touchProcess env st gp).2 q ≤ 1) ∧
    (∀ q, entryCount (gpuinfo_clean_old_cache st) q ≤ 1) ∧
    (∀ pid, findPid st.cached_process_info pid = none →
      findPid st.updated_process_info pid = none →
      entryCount (touchProcess env st { pid := pid }).2 pid = 1) ∧
    (∀ cycles q, entryCount (runCycles env st cycles) q ≤ 1) := by
  refine ⟨?_, clean_count st h, ?_, ?_⟩
  · intro gp q
    exact touchProcess_count env st gp h q
  · intro pid hc hu
    exact touchProcess_new_count env st pid hc hu
  · intro cycles q
    exact runCycles_count env cycles st h q

theorem c2_witness :
    entryCount (touchProcess ⟨fun _ => none, fun _ => none, fun _ => none⟩
      ⟨[], []⟩ { pid := 5 }).2 5 = 1 :=
  (c2_single_owner ⟨fun _ => none, fun _ => none, fun _ => none⟩ ⟨[], []⟩
    (fun _ => by simp [entryCount])).2.2.1 5 rfl rfl

theorem findPid_erasePid_ne (l : List process_info_cache) (r q : Int) (h : r ≠ q) :
    findPid (erasePid l r) q = findPid l q := by
  induction l with
  | nil => rfl
  | cons x xs ih =>
    cases hx : (x.pid == r) with
    | true =>
      have hxq : (x.pid == q) = false := by
        have : x.pid = r := by simpa using hx
        simp [this, h]
      simp only [erasePid, findPid, List.eraseP_cons, hx, cond_true,
        List.find?_cons, hxq, cond_false]
    | false =>
      simp only [erasePid, findPid, List.eraseP_cons, hx, cond_false,
        List.find?_cons]
      cases hxq : (x.pid == q) with
      | true => simp
      | false =>
        simp only [cond_false]
        simpa [erasePid, findPid] using ih

theorem touchProcess_find_other (env : PidEnv) (st : ProcCacheState)
    (gp : gpu_process) (q : Int) (h : gp.pid ≠ q) :
    findPid (touchProcess env st gp).2.updated_process_info q =
      findPid st.updated_process_info q := by
  have hbq : (gp.pid == q) = false := by simpa using h
  unfold touchProcess resolveIdentity
  rcases hc : findPid st.cached_process_info gp.pid with _ | e
  · rcases hu : findPid st.updated_process_info gp.pid with _ | e
    · -- fresh entry with pid gp.pid prepended, rest untouched
      simp only [findPid, List.find?_cons, updateProcCpu_pid, hbq, cond_false]
    · -- entry with pid gp.pid moved to the front of the current-cycle table
      have hep := findPid_some_pid _ _ _ hu
      simp only [findPid, List.find?_cons, updateProcCpu_pid, hep, hbq, cond_false]
      exact findPid_erasePid_ne st.updated_process_info gp.pid q h
  · have hep := findPid_some_pid _ _ _ hc
    simp only [findPid, List.find?_cons, updateProcCpu_pid, hep, hbq, cond_false]

theorem touchProcess_find_self (env : PidEnv) (st : ProcCacheState)
    (gp : gpu_process) :
    (findPid (touchProcess env st gp).2.updated_process_info gp.pid).isSome = true := by
  unfold touchProcess resolveIdentity
  rcases hc : findPid st.cached_process_info gp.pid with _ | e
  · rcases hu : findPid st.updated_process_info gp.pid with _ | e
    · simp only [findPid, List.find?_cons, updateProcCpu_pid, beq_self_eq_true,
        cond_true, Option.isSome_some]
    · have hep := findPid_some_pid _ _ _ hu
      simp only [findPid, List.find?_cons, updateProcCpu_pid, hep, beq_self_eq_true,
        cond_true, Option.isSome_some]
  · have hep := findPid_some_pid _ _ _ hc
    simp only [findPid, List.find?_cons, updateProcCpu_pid, hep, beq_self_eq_true,
      cond_true, Option.isSome_some]

theorem touchAll_cons (env : PidEnv) (st : ProcCacheState) (a : Int) (as : List Int) :
    touchAll env st (a :: as) = touchAll env (touchProcess env st { pid := a }).2 as :=
  rfl

theorem touchAll_find_other (env : PidEnv) (pids : List Int) :
    ∀ st : ProcCacheState, ∀ q : Int, q ∉ pids →
      findPid (touchAll env st pids).updated_process_info q =
        findPid st.updated_process_info q := by
  induction pids with
  | nil => exact fun st q _ => rfl
  | cons a as ih =>
    intro st q hq
    have hne : ({ pid := a } : gpu_process).pid ≠ q := by
      show a ≠ q
      intro hEq
      exact hq (hEq ▸ List.mem_cons_self a as)
    rw [touchAll_cons,
      ih (touchProcess env st { pid := a }).2 q (fun hmem => hq (List.mem_cons_of_mem a hmem)),
      touchProcess_find_other env st { pid := a } q hne]

theorem touchAll_find_mem (env : PidEnv) (pids : List Int) :
    ∀ st : ProcCacheState, ∀ q : Int, q ∈ pids →
      (findPid (touchAll env st pids).updated_process_info q).isSome = true := by
  induction pids with
  | nil => intro st q hq; cases hq
  | cons a as ih =>
    intro st q hq
    by_cases hmem : q ∈ as
    · rw [touchAll_cons]
      exact ih (touchProcess env st { pid := a }).2 q hmem
    · have haq : a = q := by
        rcases List.mem_cons.mp hq with h | h
        · exact h.symm
        · exact absurd h hmem
      subst haq
      rw [touchAll_cons,
        touchAll_find_other env as (touchProcess env st { pid := a }).2 a hmem]
      exact touchProcess_find_self env st { pid := a }

theorem runCycle_mem (env : PidEnv) (st : ProcCacheState) (pids : List Int) (q : Int) :
    memState (runCycle env st pids) q =
      (findPid (touchAll env st pids).updated_process_info q).isSome := by
  simp [memState, runCycle, gpuinfo_clean_old_cache, findPid]

theorem runCycle_absent (env : PidEnv) (st : ProcCacheState) (pids : List Int)
    (q : Int) (h0 : st.updated_process_info = []) (hq : q ∉ pids) :
    memState (runCycle env st pids) q = false := by
  rw [runCycle_mem, touchAll_find_other env pids st q hq, h0]
  rfl

theorem runCycles_absent (env : PidEnv) (future : List (List Int)) (q : Int) :
    ∀ st : ProcCacheState, st.updated_process_info = [] → memState st q = false →
      (∀ ps ∈ future, q ∉ ps) → memState (runCycles env st future) q = false := by
  induction future with
  | nil => exact fun st _ habs _ => habs
  | cons c cs ih =>
    intro st h0 habs hf
    have h1 : memState (runCycle env st c) q = false :=
      runCycle_absent env st c q h0 (hf c (List.mem_cons_self c cs))
    exact ih (runCycle env st c) rfl h1 (fun ps hps => hf ps (List.mem_cons_of_mem c hps))

/-- C8: starting a cycle with an empty working table, a pid touched in cycle
N is present in the cache after cycle N; if it is not touched in cycle N+1
it is reaped by the generation swap at the end of cycle N+1 — absent from
both generations — and every later cycle that does not observe it leaves
every lookup for it a miss. -/
theorem c8_reap_on_absence (env : PidEnv) (st : ProcCacheState)
    (_h0 : st.updated_process_info = []) (psN psN1 : List Int) (p : Int)
    (hp : p ∉ psN1) (future : List (List Int)) (hf : ∀ ps ∈ future, p ∉ ps) :
    (p ∈ psN → memState (runCycle env st psN) p = true) ∧
    memState (runCycle env (runCycle env st psN) psN1) p = false ∧
    memState (runCycles env (runCycle env (runCycle env st psN) psN1) future) p = false := by
  have habs : memState (runCycle env (runCycle env st psN) psN1) p = false :=
    runCycle_absent env (runCycle env st psN) psN1 p rfl hp
  refine ⟨?_, habs, ?_⟩
  · intro hmem
    rw [runCycle_mem]
    exact touchAll_find_mem env psN st p hmem
  · exact runCycles_absent env future p _ rfl habs hf

theorem c8_witness :
    memState (runCycle ⟨fun _ => none, fun _ => none, fun _ => none⟩
      (runCycle ⟨fun _ => none, fun _ => none, fun _ => none⟩ ⟨[], []⟩ [5]) [7]) 5
      = false ∧
    memState (runCycle ⟨fun _ => none, fun _ => none, fun _ => none⟩ ⟨[], []⟩ [5]) 5
      = true := by
  have h := c8_reap_on_absence ⟨fun _ => none, fun _ => none, fun _ => none⟩
    ⟨[], []⟩ rfl [5] [7] 5 (by decide) [] (by simp)
  exact ⟨h.2.1, h.1 (by decide)⟩

/-- C7 counterexample: when a fresh CPU sample is obtainable but no prior
sample exists (sentinel -1), the code records CPU% = 0 but then stores the
fresh sample as the baseline, leaving the sentinel valid (5, not -1) — the
claim's "otherwise ... the prior-sample sentinel is marked invalid" fails on
this branch (and in the unobtainable branch no CPU% is recorded at all). -/
theorem c7_counterexample :
    (updateProcCpu (some ⟨2, 3, 10, 4, 8⟩)
        { pid := 1, last_total_consumed_cpu_time := -1 } { pid := 1 }).1.cpu_usage = 0 ∧
    (updateProcCpu (some ⟨2, 3, 10, 4, 8⟩)
        { pid := 1, last_total_consumed_cpu_time := -1 }
        { pid := 1 }).1.cpu_usage_valid = true ∧
    (updateProcCpu (some ⟨2, 3, 10, 4, 8⟩)
        { pid := 1, last_total_consumed_cpu_time := -1 }
        { pid := 1 }).2.last_total_consumed_cpu_time = 5 ∧
    ¬ ((updateProcCpu (some ⟨2, 3, 10, 4, 8⟩)
        { pid := 1, last_total_consumed_cpu_time := -1 }
        { pid := 1 }).2.last_total_consumed_cpu_time = -1) := by
  have h : ¬ ((-1 : ℚ) > -1) := by norm_num
  refine ⟨?_, ?_, ?_, ?_⟩ <;> simp [updateProcCpu, h] <;> norm_num

/-- C7 amended: with a fresh sample and a prior baseline (sentinel above
-1), CPU% is the rounded 100 x CPU-time delta over wall-time delta and the
baseline is advanced to the fresh sample; with a fresh sample but no prior
baseline, CPU% is recorded as 0 and the baseline is set (valid) to the
fresh sample, so the next cycle computes a delta; without a sample, no CPU%
field is recorded at all and the sentinel is reset to -1 so the next cycle
starts from a reset baseline. -/
theorem c7_amended (e : process_info_cache) (gp : gpu_process)
    (s : process_cpu_usage) :
    (e.last_total_consumed_cpu_time > -1 →
      (updateProcCpu (some s) e gp).1.cpu_usage =
        round ((100 * (s.total_user_time + s.total_kernel_time -
          e.last_total_consumed_cpu_time)) /
          (s.timestamp - e.last_measurement_timestamp)) ∧
      (updateProcCpu (some s) e gp).1.cpu_usage_valid = true ∧
      (updateProcCpu (some s) e gp).2.last_total_consumed_cpu_time =
        s.total_kernel_time + s.total_user_time ∧
      (updateProcCpu (some s) e gp).2.last_measurement_timestamp = s.timestamp) ∧
    (¬ e.last_total_consumed_cpu_time > -1 →
      (updateProcCpu (some s) e gp).1.cpu_usage = 0 ∧
      (updateProcCpu (some s) e gp).1.cpu_usage_valid = true ∧
      (updateProcCpu (some s) e gp).2.last_total_consumed_cpu_time =
        s.total_kernel_time + s.total_user_time) ∧
    ((updateProcCpu none e gp).1 = gp ∧
      (updateProcCpu none e gp).2.last_total_consumed_cpu_time = -1) := by
  refine ⟨fun h => ?_, fun h => ?_, rfl, rfl⟩
  · simp [updateProcCpu, h]
  · simp [updateProcCpu, h]

theorem c7_amended_witness :
    (updateProcCpu (some ⟨30, 120, 1, 0, 0⟩)
        { pid := 1, last_total_consumed_cpu_time := 100,
          last_measurement_timestamp := 0 } { pid := 1 }).1.cpu_usage =
      round ((100 * ((30 : ℚ) + 120 - 100)) / ((1 : ℚ) - 0)) :=
  ((c7_amended
      { pid := 1, last_total_consumed_cpu_time := 100,
        last_measurement_timestamp := 0 } { pid := 1 }
      ⟨30, 120, 1, 0, 0⟩).1 (by norm_num)).1

theorem rateStep_fold_none (xs : List (Bool × Nat)) :
    ∀ s : Nat × Bool, xs.foldl (rateStep false) s = s := by
  induction xs with
  | nil => exact fun s => rfl
  | cons x xs ih =>
    intro s
    simpa [rateStep] using ih s

theorem rateStep_fold_valid (xs : List (Bool × Nat)) :
    ∀ v : Nat, v ≤ 100 →
      xs.foldl (rateStep true) (v, true) = (min 100 (v + sumValid xs), true) := by
  induction xs with
  | nil =>
    intro v hv
    simp [sumValid, Nat.min_eq_right hv]
  | cons x xs ih =>
    intro v hv
    cases hx : x.1 with
    | true =>
      have h1 : rateStep true (v, true) x = (min 100 (v + x.2), true) := by
        simp [rateStep, hx]
      rw [List.foldl_cons, h1, ih (min 100 (v + x.2)) (Nat.min_le_left _ _)]
      simp only [sumValid, hx, if_true]
      congr 1
      omega
    | false =>
      have h1 : rateStep true (v, true) x = (v, true) := by simp [rateStep, hx]
      rw [List.foldl_cons, h1, ih v hv]
      simp [sumValid, hx]

theorem rateStep_fold_invalid (xs : List (Bool × Nat)) :
    ∀ v : Nat, xs.foldl (rateStep true) (v, false) =
      if xs.any (fun x => x.1) then (min 100 (sumValid xs), true) else (v, false) := by
  induction xs with
  | nil => intro v; simp
  | cons x xs ih =>
    intro v
    cases hx : x.1 with
    | true =>
      have h1 : rateStep true (v, false) x = (min 100 x.2, true) := by
        simp [rateStep, hx]
      rw [List.foldl_cons, h1,
        rateStep_fold_valid xs (min 100 x.2) (Nat.min_le_left _ _)]
      simp only [List.any_cons, hx, Bool.true_or, if_true, sumValid]
      congr 1
      omega
    | false =>
      have h1 : rateStep true (v, false) x = (v, false) := by simp [rateStep, hx]
      rw [List.foldl_cons, h1, ih v,
        show ((x :: xs).any fun y => y.1) = (xs.any fun y => y.1) from by
          simp [hx],
        show sumValid (x :: xs) = sumValid xs from by simp [sumValid, hx]]

theorem fix_components (nR nE nD : Bool) (ps : List gpu_process) :
    ∀ di : gpuinfo_dynamic_info,
      ((ps.foldl (fixFromProcess nR nE nD) di).gpu_util_rate,
        (ps.foldl (fixFromProcess nR nE nD) di).gpu_util_rate_valid) =
        (ps.map fun p => (p.gpu_usage_valid, p.gpu_usage)).foldl (rateStep nR)
          (di.gpu_util_rate, di.gpu_util_rate_valid) ∧
      ((ps.foldl (fixFromProcess nR nE nD) di).encoder_rate,
        (ps.foldl (fixFromProcess nR nE nD) di).encoder_rate_valid) =
        (ps.map fun p => (p.encode_usage_valid, p.encode_usage)).foldl (rateStep nE)
          (di.encoder_rate, di.encoder_rate_valid) ∧
      ((ps.foldl (fixFromProcess nR nE nD) di).decoder_rate,
        (ps.foldl (fixFromProcess nR nE nD) di).decoder_rate_valid) =
        (ps.map fun p => (p.decode_usage_valid, p.decode_usage)).foldl (rateStep nD)
          (di.decoder_rate, di.decoder_rate_valid) := by
  induction ps with
  | nil => exact fun di => ⟨rfl, rfl, rfl⟩
  | cons p ps ih =>
    intro di
    exact ih (fixFromProcess nR nE nD di p)

theorem rate_pair_invalid (xs : List (Bool × Nat)) (v : Nat) :
    (xs.foldl (rateStep true) (v, false)).2 = xs.any (fun x => x.1) ∧
    ((xs.foldl (rateStep true) (v, false)).2 = true →
      (xs.foldl (rateStep true) (v, false)).1 = min 100 (sumValid xs)) := by
  rw [rateStep_fold_invalid xs v]
  cases h : xs.any (fun x => x.1) <;> simp [h]

theorem any_map_gpu (ps : List gpu_process) :
    ((ps.map fun p => (p.gpu_usage_valid, p.gpu_usage)).any fun x => x.1) =
      ps.any fun p => p.gpu_usage_valid := by
  induction ps with
  | nil => rfl
  | cons a as ih => simp [ih]

theorem any_map_enc (ps : List gpu_process) :
    ((ps.map fun p => (p.encode_usage_valid, p.encode_usage)).any fun x => x.1) =
      ps.any fun p => p.encode_usage_valid := by
  induction ps with
  | nil => rfl
  | cons a as ih => simp [ih]

theorem any_map_dec (ps : List gpu_process) :
    ((ps.map fun p => (p.decode_usage_valid, p.decode_usage)).any fun x => x.1) =
      ps.any fun p => p.decode_usage_valid := by
  induction ps with
  | nil => rfl
  | cons a as ih => simp [ih]

/-- C4 counterexample: a device whose overall-utilization field is invalid
and whose process list contributes no valid percentage (here: one process
with no valid usage at all) is left untouched — the field stays invalid
instead of being set to the clamped (empty, zero) sum the claim asks for. -/
theorem c4_counterexample :
    gpuinfo_fix_dynamic_info_from_process_info {} [{ pid := 1 }] = {} ∧
    ({} : gpuinfo_dynamic_info).gpu_util_rate_valid = false := by
  constructor <;> rfl

/-- C4 amended: for each of overall utilization, encoder rate and decoder
rate: when the field is invalid after the backend refresh and at least one
process carries a valid corresponding percentage, the fallback sets it to
the sum of the valid per-process percentages clamped to 100 (the iterated
clamping of the loop equals the clamp of the sum); with no valid
contribution the field remains invalid; a field the backend already filled
is left unchanged. -/
theorem c4_amended (di : gpuinfo_dynamic_info) (ps : List gpu_process) :
    (di.gpu_util_rate_valid = false →
      ((gpuinfo_fix_dynamic_info_from_process_info di ps).gpu_util_rate_valid = true ↔
        ps.any (fun p => p.gpu_usage_valid) = true) ∧
      ((gpuinfo_fix_dynamic_info_from_process_info di ps).gpu_util_rate_valid = true →
        (gpuinfo_fix_dynamic_info_from_process_info di ps).gpu_util_rate =
          min 100 (sumValid (ps.map fun p => (p.gpu_usage_valid, p.gpu_usage))))) ∧
    (di.gpu_util_rate_valid = true →
      (gpuinfo_fix_dynamic_info_from_process_info di ps).gpu_util_rate =
          di.gpu_util_rate ∧
      (gpuinfo_fix_dynamic_info_from_process_info di ps).gpu_util_rate_valid = true) ∧
    (di.encoder_rate_valid = false →
      ((gpuinfo_fix_dynamic_info_from_process_info di ps).encoder_rate_valid = true ↔
        ps.any (fun p => p.encode_usage_valid) = true) ∧
      ((gpuinfo_fix_dynamic_info_from_process_info di ps).encoder_rate_valid = true →
        (gpuinfo_fix_dynamic_info_from_process_info di ps).encoder_rate =
          min 100 (sumValid (ps.map fun p => (p.encode_usage_valid, p.encode_usage))))) ∧
    (di.encoder_rate_valid = true →
      (gpuinfo_fix_dynamic_info_from_process_info di ps).encoder_rate =
          di.encoder_rate ∧
      (gpuinfo_fix_dynamic_info_from_process_info di ps).encoder_rate_valid = true) ∧
    (di.decoder_rate_valid = false →
      ((gpuinfo_fix_dynamic_info_from_process_info di ps).decoder_rate_valid = true ↔
        ps.any (fun p => p.decode_usage_valid) = true) ∧
      ((gpuinfo_fix_dynamic_info_from_process_info di ps).decoder_rate_valid = true →
        (gpuinfo_fix_dynamic_info_from_process_info di ps).decoder_rate =
          min 100 (sumValid (ps.map fun p => (p.decode_usage_valid, p.decode_usage))))) ∧
    (di.decoder_rate_valid = true →
      (gpuinfo_fix_dynamic_info_from_process_info di ps).decoder_rate =
          di.decoder_rate ∧
      (gpuinfo_fix_dynamic_info_from_process_info di ps).decoder_rate_valid = true) := by
  by_cases hcond : (!di.gpu_util_rate_valid || !di.encoder_rate_valid ||
      !di.decoder_rate_valid) = true
  · have hfix : gpuinfo_fix_dynamic_info_from_process_info di ps =
        ps.foldl (fixFromProcess (!di.gpu_util_rate_valid)
          (!di.encoder_rate_valid) (!di.decoder_rate_valid)) di := by
      unfold gpuinfo_fix_dynamic_info_from_process_info
      simp [hcond]
    obtain ⟨hcR, hcE, hcD⟩ := fix_components (!di.gpu_util_rate_valid)
      (!di.encoder_rate_valid) (!di.decoder_rate_valid) ps di
    refine ⟨fun hv => ?_, fun hv => ?_, fun hv => ?_, fun hv => ?_,
      fun hv => ?_, fun hv => ?_⟩
    · rw [hfix]
      rw [hv] at hcR ⊢
      simp only [Bool.not_false] at hcR ⊢
      obtain ⟨hP2, hP1⟩ := rate_pair_invalid
        (ps.map fun p => (p.gpu_usage_valid, p.gpu_usage)) di.gpu_util_rate
      have hany := any_map_gpu ps
      have hval := congrArg Prod.fst hcR
      have hvalid := congrArg Prod.snd hcR
      simp only [] at hval hvalid
      rw [hvalid, hP2, hany]
      refine ⟨Iff.rfl, fun ht => ?_⟩
      rw [hval]
      exact hP1 (by rw [hP2, hany]; exact ht)
    · rw [hfix]
      rw [hv] at hcR ⊢
      simp only [Bool.not_true] at hcR ⊢
      rw [rateStep_fold_none] at hcR
      have hval := congrArg Prod.fst hcR
      have hvalid := congrArg Prod.snd hcR
      simp only [] at hval hvalid
      rw [hval, hvalid]
      exact ⟨rfl, rfl⟩
    · rw [hfix]
      rw [hv] at hcE ⊢
      simp only [Bool.not_false] at hcE ⊢
      obtain ⟨hP2, hP1⟩ := rate_pair_invalid
        (ps.map fun p => (p.encode_usage_valid, p.encode_usage)) di.encoder_rate
      have hany := any_map_enc ps
      have hval := congrArg Prod.fst hcE
      have hvalid := congrArg Prod.snd hcE
      simp only [] at hval hvalid
      rw [hvalid, hP2, hany]
      refine ⟨Iff.rfl, fun ht => ?_⟩
      rw [hval]
      exact hP1 (by rw [hP2, hany]; exact ht)
    · rw [hfix]
      rw [hv] at hcE ⊢
      simp only [Bool.not_true] at hcE ⊢
      rw [rateStep_fold_none] at hcE
      have hval := congrArg Prod.fst hcE
      have hvalid := congrArg Prod.snd hcE
      simp only [] at hval hvalid
      rw [hval, hvalid]
      exact ⟨rfl, rfl⟩
    · rw [hfix]
      rw [hv] at hcD ⊢
      simp only [Bool.not_false] at hcD ⊢
      obtain ⟨hP2, hP1⟩ := rate_pair_invalid
        (ps.map fun p => (p.decode_usage_valid, p.decode_usage)) di.decoder_rate
      have hany := any_map_dec ps
      have hval := congrArg Prod.fst hcD
      have hvalid := congrArg Prod.snd hcD
      simp only [] at hval hvalid
      rw [hvalid, hP2, hany]
      refine ⟨Iff.rfl, fun ht => ?_⟩
      rw [hval]
      exact hP1 (by rw [hP2, hany]; exact ht)
    · rw [hfix]
      rw [hv] at hcD ⊢
      simp only [Bool.not_true] at hcD ⊢
      rw [rateStep_fold_none] at hcD
      have hval := congrArg Prod.fst hcD
      have hvalid := congrArg Prod.snd hcD
      simp only [] at hval hvalid
      rw [hval, hvalid]
      exact ⟨rfl, rfl⟩
  · have hall : di.gpu_util_rate_valid = true ∧ di.encoder_rate_valid = true ∧
        di.decoder_rate_valid = true := by
      cases h1 : di.gpu_util_rate_valid <;> cases h2 : di.encoder_rate_valid <;>
        cases h3 : di.decoder_rate_valid <;> simp_all
    have hfix : gpuinfo_fix_dynamic_info_from_process_info di ps = di := by
      unfold gpuinfo_fix_dynamic_info_from_process_info
      simp [hall.1, hall.2.1, hall.2.2]
    rw [hfix]
    exact ⟨fun hv => by rw [hv] at hall; simp at hall,
      fun hv => ⟨rfl, hv⟩,
      fun hv => by rw [hv] at hall; simp at hall,
      fun hv => ⟨rfl, hv⟩,
      fun hv => by rw [hv] at hall; simp at hall,
      fun hv => ⟨rfl, hv⟩⟩

theorem c4_witness :
    (gpuinfo_fix_dynamic_info_from_process_info {}
        [{ pid := 1, gpu_usage := 10, gpu_usage_valid := true },
         { pid := 2, gpu_usage := 25, gpu_usage_valid := true },
         { pid := 3, gpu_usage := 40, gpu_usage_valid := true }]).gpu_util_rate = 75 ∧
    (gpuinfo_fix_dynamic_info_from_process_info {}
        [{ pid := 1, gpu_usage := 40, gpu_usage_valid := true },
         { pid := 2, gpu_usage := 40, gpu_usage_valid := true },
         { pid := 3, gpu_usage := 40, gpu_usage_valid := true }]).gpu_util_rate = 100 := by
  constructor
  · have h := ((c4_amended {}
      [{ pid := 1, gpu_usage := 10, gpu_usage_valid := true },
       { pid := 2, gpu_usage := 25, gpu_usage_valid := true },
       { pid := 3, gpu_usage := 40, gpu_usage_valid := true }]).1 rfl)
    rw [h.2 (h.1.mpr (by decide))]
    decide
  · have h := ((c4_amended {}
      [{ pid := 1, gpu_usage := 40, gpu_usage_valid := true },
       { pid := 2, gpu_usage := 40, gpu_usage_valid := true },
       { pid := 3, gpu_usage := 40, gpu_usage_valid := true }]).1 rfl)
    rw [h.2 (h.1.mpr (by decide))]
    decide
